import Mathlib

/-!
Verification of the invoice field-extraction core of `invoice_ocr.py`
(repository AbdulRehmanRattu/Invoice-OCR-Processor).

The Python source works on strings with the `re` module.  The embedding
below works on `List Char`.  Every regular expression appearing in the
source is built from literals, ordered alternation, optional pieces, and
greedy (possibly bounded) repetition of single-character classes, so the
small `RE` type below is enough to represent all of them exactly.
`matchRE` enumerates the lengths a pattern can consume at the head of a
string, in the preference order of a backtracking engine: greedy
repetition tries longer consumptions first, alternation tries the left
alternative first.  This is the order Python's `re` uses, so taking the
head of the enumeration reproduces Python's match.  Every capture group in
the source is the final piece of its pattern, so a pattern is represented
as a pair of `RE`s: the part before the group, and the group itself.
-/

/-- Python `\s` on the ASCII range: the whitespace characters the source's
patterns and `str.strip()` treat as blank. -/
def isSpaceChar (c : Char) : Bool :=
  c = ' ' || c = '\t' || c = '\n' || c = '\r' || c = '\x0b' || c = '\x0c'

/-- Character class `[A-Z0-9\-]` of the invoice-number patterns. -/
def isUpperAlnumDash (c : Char) : Bool :=
  c.isUpper || c.isDigit || c = '-'

/-- Character class `[/\-\.]` separating date components. -/
def isDateSep (c : Char) : Bool :=
  c = '/' || c = '-' || c = '.'

/-- Character class `[A-Za-z]` of the textual date pattern. -/
def isAsciiLetter (c : Char) : Bool :=
  c.isAlpha

/-- Character class `[£$€]` of the amount and currency patterns. -/
def isCurrencySymbol (c : Char) : Bool :=
  c = '£' || c = '$' || c = '€'

/-- Character class `[\d,]` of the numeric token in the amount patterns. -/
def isDigitOrComma (c : Char) : Bool :=
  c.isDigit || c = ','

/-- Concatenated image of a list-valued function, in order. -/
def catMap {α β : Type} (f : α → List β) : List α → List β
  | [] => []
  | a :: rest => f a ++ catMap f rest

/-- Length of the maximal run of characters satisfying `p` at the head of
the string. -/
def takeRun (p : Char → Bool) : List Char → Nat
  | [] => 0
  | c :: rest => if p c then takeRun p rest + 1 else 0

/-- Candidate consumption lengths for a greedy class repetition: from `hi`
down to `lo` (empty when `hi < lo`). -/
def clsLens (lo hi : Nat) : List Nat :=
  (List.range (hi + 1 - lo)).map (fun i => hi - i)

/-- Shape of the regular expressions used by `invoice_ocr.py`: literals,
greedy repetition of a character class with an optional upper bound
(`x*`, `x+`, `x?`, `x\x7bm,n\x7d` for a class `x`), ordered alternation,
and concatenation.  `(?:...)?` is encoded as alternation with the empty
literal. -/
inductive RE where
  | lit : List Char → RE
  | cls : (Char → Bool) → Nat → Option Nat → RE
  | alt : RE → RE → RE
  | seq : RE → RE → RE

/-- All lengths the expression can consume at the head of `s`, listed in
the preference order of Python's backtracking engine: a literal consumes
its own length; a greedy class repetition prefers longer runs; alternation
prefers the left alternative; concatenation orders pairs
lexicographically. -/
def matchRE : RE → List Char → List Nat
  | .lit w, s => if w.isPrefixOf s then [w.length] else []
  | .cls p lo hi, s =>
      let run := takeRun p s
      clsLens lo (match hi with | some h => min h run | none => run)
  | .alt r1 r2, s => matchRE r1 s ++ matchRE r2 s
  | .seq r1 r2, s =>
      catMap (fun n1 => (matchRE (r2) (s.drop n1)).map (fun n2 => n1 + n2)) (matchRE r1 s)

/-- First way (in backtracking order) the pattern `pre` followed by the
capture group `grp` can match at the head of `s`: consumption of `pre`
paired with consumption of `grp`. -/
def reMatchHere (pre grp : RE) (s : List Char) : Option (Nat × Nat) :=
  (catMap (fun n1 => (matchRE grp (s.drop n1)).map (fun n2 => (n1, n2))) (matchRE pre s)).head?

/-- Python `re.search` for a pattern whose capture group is its final
piece: scan start positions left to right (including the position at the
end of the string), and at the first position where the pattern matches,
return the text consumed by the group. -/
def reSearchCap (pre grp : RE) : List Char → Option (List Char)
  | [] => (reMatchHere pre grp []).map (fun pr => (([] : List Char).drop pr.1).take pr.2)
  | c :: rest =>
      match reMatchHere pre grp (c :: rest) with
      | some (n1, n2) => some (((c :: rest).drop n1).take n2)
      | none => reSearchCap pre grp rest

/-- Worker for `reFindAll`; `fuel` bounds the number of start positions
still to be scanned, so the recursion is structural. -/
def reFindAllAux (grp : RE) : Nat → List Char → List (List Char)
  | _, [] =>
      match (matchRE grp []).head? with
      | some _ => [[]]
      | none => []
  | 0, _ :: _ => []
  | fuel + 1, c :: rest =>
      match (matchRE grp (c :: rest)).head? with
      | some n => (c :: rest).take n :: reFindAllAux grp fuel ((c :: rest).drop (max n 1))
      | none => reFindAllAux grp fuel rest

/-- Python `re.findall` for a pattern that is a single capture group:
collect non-overlapping matches left to right, resuming after each match
(advancing one position after an empty match, as `re` does). -/
def reFindAll (grp : RE) (s : List Char) : List (List Char) :=
  reFindAllAux grp s.length s

/-- Python `sub in hay` substring test. -/
def containsSub (needle : List Char) : List Char → Bool
  | [] => needle.isEmpty
  | c :: rest => needle.isPrefixOf (c :: rest) || containsSub needle rest

/-- Python `text.split('\n')`: the empty string yields one empty part. -/
def splitNl : List Char → List (List Char)
  | [] => [[]]
  | c :: rest =>
      if c = '\n' then [] :: splitNl rest
      else
        match splitNl rest with
        | [] => [[c]]
        | h :: t => (c :: h) :: t

/-- Python `str.upper()` (ASCII range, which is all the source's patterns
distinguish). -/
def upperCL (s : List Char) : List Char := s.map Char.toUpper

/-- Python `str.strip()`. -/
def pyStrip (s : List Char) : List Char :=
  ((s.dropWhile isSpaceChar).reverse.dropWhile isSpaceChar).reverse

/-- Python `' '.join(parts)`. -/
def joinWithSpace : List (List Char) → List Char
  | [] => []
  | [x] => x
  | x :: y :: rest => x ++ ' ' :: joinWithSpace (y :: rest)

/-- Python `s.isdigit()`: non-empty and all digits. -/
def pyIsDigit (s : List Char) : Bool :=
  !s.isEmpty && s.all Char.isDigit

/-! ## The patterns of `extract_invoice_fields` (invoice_ocr.py lines 118-183) -/

/-- Literal regex piece from a string. -/
def litS (s : String) : RE := .lit s.toList

/-- Regex piece `(?:r)?`: try `r`, then the empty alternative. -/
def optRE (r : RE) : RE := .alt r (.lit [])

/-- Regex piece `\s*`. -/
def wsStar : RE := .cls isSpaceChar 0 none

/-- Regex piece `\s+`. -/
def wsPlus : RE := .cls isSpaceChar 1 none

/-- Concatenation of a list of pieces. -/
def seqs : List RE → RE
  | [] => .lit []
  | [r] => r
  | r :: rest => .seq r (seqs rest)

/-- Capture group `([A-Z0-9\-]+)` shared by the four invoice-number
patterns (line 118-123). -/
def invGroup : RE := .cls isUpperAlnumDash 1 none

/-- Pattern 1, before the group: `INVOICE\s*(?:NO|NUMBER|#)?\s*:?\s*`. -/
def invoicePre1 : RE :=
  seqs [litS "INVOICE", wsStar, optRE (.alt (litS "NO") (.alt (litS "NUMBER") (litS "#"))),
    wsStar, optRE (litS ":"), wsStar]

/-- Pattern 2, before the group: `INV\s*(?:NO|#)?\s*:?\s*`. -/
def invoicePre2 : RE :=
  seqs [litS "INV", wsStar, optRE (.alt (litS "NO") (litS "#")), wsStar, optRE (litS ":"), wsStar]

/-- Pattern 3, before the group: `INVOICE\s+`. -/
def invoicePre3 : RE := seqs [litS "INVOICE", wsPlus]

/-- Pattern 4, before the group: `#\s*`. -/
def invoicePre4 : RE := seqs [litS "#", wsStar]

/-- Date pattern `(\d{1,2}[/\-\.]\d{1,2}[/\-\.]\d{2,4})` (line 133). -/
def datePat1 : RE :=
  seqs [.cls Char.isDigit 1 (some 2), .cls isDateSep 1 (some 1), .cls Char.isDigit 1 (some 2),
    .cls isDateSep 1 (some 1), .cls Char.isDigit 2 (some 4)]

/-- Date pattern `(\d{1,2}\s+[A-Za-z]{3,9}\s+\d{2,4})` (line 134). -/
def datePat2 : RE :=
  seqs [.cls Char.isDigit 1 (some 2), wsPlus, .cls isAsciiLetter 3 (some 9), wsPlus,
    .cls Char.isDigit 2 (some 4)]

/-- Date pattern `(\d{2,4}[/\-\.]\d{1,2}[/\-\.]\d{1,2})` (line 135). -/
def datePat3 : RE :=
  seqs [.cls Char.isDigit 2 (some 4), .cls isDateSep 1 (some 1), .cls Char.isDigit 1 (some 2),
    .cls isDateSep 1 (some 1), .cls Char.isDigit 1 (some 2)]

/-- Capture group `([£$€]?\s*[\d,]+\.?\d*)` shared by the four amount
patterns (lines 176-179). -/
def amountGroup : RE :=
  seqs [.cls isCurrencySymbol 0 (some 1), wsStar, .cls isDigitOrComma 1 none,
    .cls (fun c => c = '.') 0 (some 1), .cls Char.isDigit 0 none]

/-- Regex piece `(?:GBP|USD|EUR|\$|£|€)?` of the TOTAL and AMOUNT DUE
patterns. -/
def currencyTagOpt : RE :=
  optRE (.alt (litS "GBP") (.alt (litS "USD") (.alt (litS "EUR")
    (.alt (litS "$") (.alt (litS "£") (litS "€"))))))

/-- TOTAL pattern, before the group: `TOTAL\s*(?:GBP|USD|EUR|\$|£|€)?:?\s*`. -/
def totalPre : RE :=
  seqs [litS "TOTAL", wsStar, currencyTagOpt, optRE (litS ":"), wsStar]

/-- AMOUNT DUE pattern, before the group:
`AMOUNT\s+DUE\s*(?:GBP|USD|EUR|\$|£|€)?:?\s*`. -/
def amountDuePre : RE :=
  seqs [litS "AMOUNT", wsPlus, litS "DUE", wsStar, currencyTagOpt, optRE (litS ":"), wsStar]

/-- SUBTOTAL pattern, before the group: `SUBTOTAL\s*:?\s*`. -/
def subtotalPre : RE :=
  seqs [litS "SUBTOTAL", wsStar, optRE (litS ":"), wsStar]

/-- TAX pattern, before the group: `TAX\s*(?:\d+%)?:?\s*`. -/
def taxPre : RE :=
  seqs [litS "TAX", wsStar, optRE (.seq (.cls Char.isDigit 1 none) (litS "%")),
    optRE (litS ":"), wsStar]

/-- Currency pattern `[£$€]|GBP|USD|EUR` (line 183); no capture group, the
whole match is used, so it is placed in the group slot. -/
def currencyRegex : RE :=
  .alt (.cls isCurrencySymbol 1 (some 1)) (.alt (litS "GBP") (.alt (litS "USD") (litS "EUR")))

/-! ## The field mapping (invoice_ocr.py lines 101-112) -/

/-- Python dict assignment `d[k] = v`: replace the value of an existing
key in place (insertion order kept), append a fresh key at the end. -/
def dictSet (d : List (String × String)) (k v : String) : List (String × String) :=
  if d.any (fun p => p.1 == k) then
    d.map (fun p => if p.1 == k then (p.1, v) else p)
  else d ++ [(k, v)]

/-- Python dict read `d[k]` for the string-valued field mapping (missing
keys read as the empty string; the source never reads a missing key). -/
def dictGet (d : List (String × String)) (k : String) : String :=
  match d.find? (fun p => p.1 == k) with
  | some p => p.2
  | none => ""

/-- The dict literal initialising `fields` (lines 101-112), in source
order. -/
def initFields : List (String × String) :=
  [("invoice_number", ""), ("invoice_date", ""), ("due_date", ""), ("vendor_name", ""),
   ("vendor_address", ""), ("bill_to", ""), ("total_amount", ""), ("subtotal", ""),
   ("tax_amount", ""), ("currency", "")]

/-- The ten field names, in the insertion order of the dict literal. -/
def tenKeys : List String :=
  ["invoice_number", "invoice_date", "due_date", "vendor_name", "vendor_address",
   "bill_to", "total_amount", "subtotal", "tax_amount", "currency"]

/-! ## The steps of `extract_invoice_fields` (invoice_ocr.py lines 99-211) -/

/-- Lines 125-129: the four invoice-number patterns are tried against the
upper-cased text in order; the first one with a match sets the field
(`match.group(1).strip()`) and the loop breaks. -/
def applyInvoiceNumber (upper : List Char) (d : List (String × String)) :
    List (String × String) :=
  match reSearchCap invoicePre1 invGroup upper with
  | some cap => dictSet d "invoice_number" (pyStrip cap).asString
  | none =>
    match reSearchCap invoicePre2 invGroup upper with
    | some cap => dictSet d "invoice_number" (pyStrip cap).asString
    | none =>
      match reSearchCap invoicePre3 invGroup upper with
      | some cap => dictSet d "invoice_number" (pyStrip cap).asString
      | none =>
        match reSearchCap invoicePre4 invGroup upper with
        | some cap => dictSet d "invoice_number" (pyStrip cap).asString
        | none => d

/-- Lines 138-140: `dates_found` is the concatenation of the findall
results of the three date patterns over the original-case text. -/
def datesFound (s : List Char) : List (List Char) :=
  reFindAll datePat1 s ++ reFindAll datePat2 s ++ reFindAll datePat3 s

/-- Lines 142-144: when any date was collected, the first becomes
`invoice_date` and the second (or the empty string) becomes `due_date`. -/
def applyDates (s : List Char) (d : List (String × String)) : List (String × String) :=
  if (datesFound s).isEmpty then d
  else
    dictSet
      (dictSet d "invoice_date"
        (if (datesFound s).length > 0 then ((datesFound s).getD 0 []).asString else ""))
      "due_date"
      (if (datesFound s).length > 1 then ((datesFound s).getD 1 []).asString else "")

/-- The keyword exclusion list of the vendor heuristic (line 149). -/
def vendorKeywords : List (List Char) :=
  ["INVOICE".toList, "BILL TO".toList, "DATE".toList]

/-- Lines 147-152: scan the given lines in order; a line qualifies when its
strip is non-blank and no keyword occurs in its upper-cased form; stripped
qualifying lines are appended, stopping once three are collected. -/
def collectVendorLines : List (List Char) → List (List Char) → List (List Char)
  | [], acc => acc
  | l :: rest, acc =>
      if !(pyStrip l).isEmpty
          && !(vendorKeywords.any (fun kw => containsSub kw (upperCL l))) then
        if (acc ++ [pyStrip l]).length ≥ 3 then acc ++ [pyStrip l]
        else collectVendorLines rest (acc ++ [pyStrip l])
      else collectVendorLines rest acc

/-- Lines 147-156: the vendor heuristic runs over the first ten lines; when
it collected anything, the first line is the vendor name and the rest are
joined into the address. -/
def applyVendor (lines : List (List Char)) (d : List (String × String)) :
    List (String × String) :=
  if (collectVendorLines (lines.take 10) []).isEmpty then d
  else
    dictSet
      (dictSet d "vendor_name" ((collectVendorLines (lines.take 10) []).getD 0 []).asString)
      "vendor_address"
      (joinWithSpace ((collectVendorLines (lines.take 10) []).drop 1)).asString

/-- Lines 159-163: the lines after the first line whose upper-cased form
contains BILL TO, or `none` when there is no such line. -/
def billToTail : List (List Char) → Option (List (List Char))
  | [] => none
  | l :: rest =>
      if containsSub "BILL TO".toList (upperCL l) then some rest else billToTail rest

/-- Lines 166-171: collect stripped lines until the first blank one. -/
def takeNonblankStrips : List (List Char) → List (List Char)
  | [] => []
  | l :: rest => if (pyStrip l).isEmpty then [] else pyStrip l :: takeNonblankStrips rest

/-- Lines 158-172: when a BILL TO line exists, `bill_to` is the join of at
most five following lines, stopping at the first blank one. -/
def applyBillTo (lines : List (List Char)) (d : List (String × String)) :
    List (String × String) :=
  match billToTail lines with
  | some rest => dictSet d "bill_to" (joinWithSpace (takeNonblankStrips (rest.take 5))).asString
  | none => d

/-- Lines 185-186: the symbol-to-code dict, read with the matched text as
default. -/
def currencyCode (m : List Char) : String :=
  if m = ['£'] then "GBP"
  else if m = ['$'] then "USD"
  else if m = ['€'] then "EUR"
  else m.asString

/-- Lines 182-186: the first currency symbol or code found in the
upper-cased text sets the `currency` field. -/
def applyCurrency (upper : List Char) (d : List (String × String)) :
    List (String × String) :=
  match reSearchCap (.lit []) currencyRegex upper with
  | some m => dictSet d "currency" (currencyCode m)
  | none => d

/-- Line 192: `re.sub(r'[£$€,\s]', '', amount)`. -/
def stripAmountChars (s : List Char) : List Char :=
  s.filter (fun c => !(isCurrencySymbol c || c = ',' || isSpaceChar c))

/-- Line 193: `amount.replace('.', '').isdigit()`. -/
def amountOk (s : List Char) : Bool :=
  pyIsDigit (s.filter (fun c => !(c = '.')))

/-- Second iteration of the loop at lines 189-195: the AMOUNT DUE pattern,
tried when the TOTAL pattern produced no match or a match failing the
digit check. -/
def applyAmountDue (upper : List Char) (d : List (String × String)) :
    List (String × String) :=
  match reSearchCap amountDuePre amountGroup upper with
  | some cap =>
      if amountOk (stripAmountChars cap) then
        dictSet d "total_amount" (stripAmountChars cap).asString
      else d
  | none => d

/-- Lines 189-195: the loop over the first two amount patterns; a pattern
sets `total_amount` and breaks only when its stripped match passes the
digit check, otherwise the next pattern is tried. -/
def applyTotalAmount (upper : List Char) (d : List (String × String)) :
    List (String × String) :=
  match reSearchCap totalPre amountGroup upper with
  | some cap =>
      if amountOk (stripAmountChars cap) then
        dictSet d "total_amount" (stripAmountChars cap).asString
      else applyAmountDue upper d
  | none => applyAmountDue upper d

/-- Lines 198-202: the SUBTOTAL pattern sets `subtotal` when its stripped
match passes the digit check. -/
def applySubtotal (upper : List Char) (d : List (String × String)) :
    List (String × String) :=
  match reSearchCap subtotalPre amountGroup upper with
  | some cap =>
      if amountOk (stripAmountChars cap) then
        dictSet d "subtotal" (stripAmountChars cap).asString
      else d
  | none => d

/-- Lines 205-209: the TAX pattern sets `tax_amount` when its stripped
match passes the digit check. -/
def applyTax (upper : List Char) (d : List (String × String)) :
    List (String × String) :=
  match reSearchCap taxPre amountGroup upper with
  | some cap =>
      if amountOk (stripAmountChars cap) then
        dictSet d "tax_amount" (stripAmountChars cap).asString
      else d
  | none => d

/-- `InvoiceProcessor.extract_invoice_fields` (lines 99-211): the field
dict is initialised with all ten keys empty and the extraction steps run
in source order on the split lines, the original-case text and the
upper-cased text. -/
def extract_invoice_fields (text : String) : List (String × String) :=
  let s := text.toList
  let lines := splitNl s
  let upper := upperCL s
  applyTax upper (applySubtotal upper (applyTotalAmount upper (applyCurrency upper
    (applyBillTo lines (applyVendor lines (applyDates s (applyInvoiceNumber upper initFields)))))))

/-! ## The orchestrator `OCRWorker.run` (invoice_ocr.py lines 224-268)

The worker's body is one `try` block: for a PDF input it first rasterizes
the pages (an empty page list emits an error and returns); it then runs
the chosen recognition engine on the first page, extracts the fields,
emits the result, and — still inside the `try`, after the emit — deletes
the temporary page images when the input was a PDF.  The `except` handler
emits an error string and returns.  The model below keeps the inputs the
control flow depends on: whether the path ends in `.pdf`, the page list
`pdf_to_images` returns, the text the recognition adapter returns (the
adapters catch their own errors and return an empty string), and whether
some step after rasterization raises an uncaught exception, which the
source's `except Exception` clause turns into the error path. -/

/-- Terminal states of one worker run: `done` when the result was emitted
through `finished`, `failed` when an error was emitted through `error`. -/
inductive RunOutcome where
  | done : RunOutcome
  | failed : RunOutcome
deriving DecidableEq

/-- Inputs a single `OCRWorker.run` invocation depends on. -/
structure RunEnv where
  isPdf : Bool
  rasterized : List String
  recognizedText : String
  recognitionRaises : Bool
  faultMessage : String
deriving DecidableEq

/-- Observable effects of a single `OCRWorker.run` invocation. -/
structure RunResult where
  outcome : RunOutcome
  recognitionAttempted : Bool
  extractionAttempted : Bool
  finishedEmitted : Bool
  errorEmitted : Bool
  errorMessage : Option String
  cleanupExecuted : Bool
  fields : Option (List (String × String))
deriving DecidableEq

/-- `OCRWorker.run` (lines 224-268).  Branch one is lines 228-233 (PDF
with an empty page list: emit the error and return before recognition);
branch two is the `except` handler at lines 267-268 reached when a step
after rasterization raises; branch three is the normal path, lines
240-265, whose temp-file cleanup loop runs only for PDF inputs and only
on this path, because it is placed inside the `try` after the
`finished` emit. -/
def OCRWorker_run (env : RunEnv) : RunResult :=
  if env.isPdf && env.rasterized.isEmpty then
    { outcome := .failed, recognitionAttempted := false, extractionAttempted := false,
      finishedEmitted := false, errorEmitted := true,
      errorMessage := some "Failed to convert PDF to images",
      cleanupExecuted := false, fields := none }
  else if env.recognitionRaises then
    { outcome := .failed, recognitionAttempted := true, extractionAttempted := false,
      finishedEmitted := false, errorEmitted := true,
      errorMessage := some ("OCR processing failed: " ++ env.faultMessage),
      cleanupExecuted := false, fields := none }
  else
    { outcome := .done, recognitionAttempted := true, extractionAttempted := true,
      finishedEmitted := true, errorEmitted := false, errorMessage := none,
      cleanupExecuted := env.isPdf,
      fields := some (extract_invoice_fields env.recognizedText) }


/-! ## Derived descriptions and concrete runs used by the claims -/

/-- Result of trying the four invoice-number patterns in their priority
order: the first one that matches at all provides the capture. -/
def invFirstMatch (u : List Char) : Option (List Char) :=
  (([reSearchCap invoicePre1 invGroup u, reSearchCap invoicePre2 invGroup u,
     reSearchCap invoicePre3 invGroup u, reSearchCap invoicePre4 invGroup u]).filterMap id).head?

/-- The stripped candidate amounts offered by the TOTAL and AMOUNT DUE
patterns, in that order (at most one candidate per pattern). -/
def totalCandidates (u : List Char) : List (List Char) :=
  (([reSearchCap totalPre amountGroup u,
     reSearchCap amountDuePre amountGroup u]).filterMap id).map stripAmountChars

/-! ## Statements written from the spec's wording, for comparison -/

/-- Modelled on claim C4's wording: the TOTAL pattern is tried first and
AMOUNT DUE is consulted only when TOTAL does not match at all; a match
sets the field only when the stripped token passes the digit check,
otherwise the field stays empty. -/
def totalAmountClaimWording (u : List Char) : String :=
  match reSearchCap totalPre amountGroup u with
  | some cap =>
      if amountOk (stripAmountChars cap) then (stripAmountChars cap).asString else ""
  | none =>
      match reSearchCap amountDuePre amountGroup u with
      | some cap =>
          if amountOk (stripAmountChars cap) then (stripAmountChars cap).asString else ""
      | none => ""

/-- Amended total-amount rule: TOTAL then AMOUNT DUE are tried in order
and the first candidate whose stripped token passes the digit check wins;
a candidate failing the check does not stop the next pattern from being
tried; with no passing candidate the field stays empty. -/
def totalAmountAmended (u : List Char) : String :=
  match ((totalCandidates u).filter amountOk).head? with
  | some a => a.asString
  | none => ""

/-- Invoice-number rule: the four patterns are tried in strict priority
order against the upper-cased text and the first one producing any match
provides the (stripped) capture; with no match the field stays empty. -/
def invoiceNumberResolved (u : List Char) : String :=
  match invFirstMatch u with
  | some cap => (pyStrip cap).asString
  | none => ""

/-- A PDF run that rasterizes one page and then hits an uncaught
exception in a later step. -/
def faultyPdfEnv : RunEnv :=
  { isPdf := true, rasterized := ["temp_page_0.png"], recognizedText := "",
    recognitionRaises := true, faultMessage := "engine crashed" }

/-- A PDF run whose rasterization yields no pages. -/
def emptyPdfEnv : RunEnv :=
  { isPdf := true, rasterized := [], recognizedText := "",
    recognitionRaises := false, faultMessage := "" }

/-- An image-input run whose recognition returns the empty string. -/
def emptyTextImageEnv : RunEnv :=
  { isPdf := false, rasterized := [], recognizedText := "",
    recognitionRaises := false, faultMessage := "" }

/-! ## Elementary facts about the dict model -/

theorem find?_map_keyfix (f : String × String → String × String)
    (hf : ∀ p, (f p).1 = p.1) (kq : String) (d : List (String × String)) :
    (d.map f).find? (fun p => p.1 == kq) = Option.map f (d.find? (fun p => p.1 == kq)) := by
  induction d with
  | nil => rfl
  | cons a t ih =>
      simp only [List.map_cons, List.find?_cons, hf a]
      cases hak : (a.1 == kq) with
      | true => rfl
      | false => exact ih

theorem setval_keyfix (k v : String) :
    ∀ p : String × String, ((fun p : String × String => if p.1 == k then (p.1, v) else p) p).1 = p.1 := by
  intro p
  by_cases h : p.1 == k <;> simp [h]

theorem map_fst_setval (d : List (String × String)) (k v : String) :
    (d.map (fun p => if p.1 == k then (p.1, v) else p)).map Prod.fst = d.map Prod.fst := by
  induction d with
  | nil => rfl
  | cons a t ih =>
      simp only [List.map_cons, ih]
      congr 1
      exact setval_keyfix k v a

theorem any_key_of_mem {d : List (String × String)} {k : String}
    (h : k ∈ d.map Prod.fst) : d.any (fun p => p.1 == k) = true := by
  induction d with
  | nil => simp at h
  | cons a t ih =>
      simp only [List.map_cons, List.mem_cons] at h
      rcases h with h | h
      · simp [h]
      · simp [ih h]

theorem dictSet_keys_of_mem (d : List (String × String)) (k v : String)
    (h : k ∈ d.map Prod.fst) : (dictSet d k v).map Prod.fst = d.map Prod.fst := by
  unfold dictSet
  rw [if_pos (any_key_of_mem h)]
  exact map_fst_setval d k v

theorem find_append_of_none {α : Type} (p : α → Bool) (l1 l2 : List α)
    (h : l1.find? p = none) : (l1 ++ l2).find? p = l2.find? p := by
  induction l1 with
  | nil => rfl
  | cons a t ih =>
      simp only [List.find?_cons] at h ⊢
      cases ha : p a with
      | true => rw [ha] at h; exact absurd h (by simp)
      | false =>
          rw [ha] at h
          simp only [List.cons_append, List.find?_cons, ha]
          exact ih h

theorem find_none_of_not_any (d : List (String × String)) (k : String)
    (hany : ¬ d.any (fun p => p.1 == k) = true) :
    d.find? (fun p => p.1 == k) = none := by
  rw [List.find?_eq_none]
  intro x hx hpx
  exact hany (List.any_eq_true.mpr ⟨x, hx, hpx⟩)

theorem dictGet_dictSet_ne (d : List (String × String)) (k kq v : String) (h : ¬ kq = k) :
    dictGet (dictSet d k v) kq = dictGet d kq := by
  unfold dictSet dictGet
  by_cases hany : d.any (fun p => p.1 == k)
  · rw [if_pos hany, find?_map_keyfix _ (setval_keyfix k v) kq d]
    cases hfind : d.find? (fun p => p.1 == kq) with
    | none => rfl
    | some q =>
        have hq : (q.1 == kq) = true := by
          have := List.find?_some hfind
          simpa using this
        have hqe : q.1 = kq := by simpa using hq
        have hqne : ¬ q.1 = k := by
          rw [hqe]
          exact h
        simp [hqne]
  · rw [if_neg hany]
    have hnone := find_none_of_not_any d k hany
    by_cases hfind : (d.find? (fun p => p.1 == kq)).isSome
    · rcases Option.isSome_iff_exists.mp hfind with ⟨q, hq⟩
      rw [List.find?_append, hq]
      simp [hq]
    · have hq : d.find? (fun p => p.1 == kq) = none := Option.not_isSome_iff_eq_none.mp hfind
      rw [find_append_of_none _ _ _ hq, hq]
      have hkq : (k == kq) = false := by
        simp
        exact fun hh => h hh.symm
      simp [List.find?_cons, hkq]

theorem dictGet_dictSet_self (d : List (String × String)) (k v : String) :
    dictGet (dictSet d k v) k = v := by
  unfold dictSet dictGet
  by_cases hany : d.any (fun p => p.1 == k)
  · rw [if_pos hany, find?_map_keyfix _ (setval_keyfix k v) k d]
    rcases List.any_eq_true.mp hany with ⟨x, hx, hpx⟩
    cases hfind : d.find? (fun p => p.1 == k) with
    | none =>
        rw [List.find?_eq_none] at hfind
        exact absurd hpx (by simpa using hfind x hx)
    | some q =>
        have hq : q.1 = k := by
          have := List.find?_some hfind
          simpa using this
        simp [hq]
  · rw [if_neg hany]
    have hnone := find_none_of_not_any d k hany
    rw [find_append_of_none _ _ _ hnone]
    simp [List.find?_cons]

/-- Setting a key that is already present keeps the key list. -/
theorem keys_after_set (d : List (String × String)) (k v : String)
    (hd : d.map Prod.fst = tenKeys) (hk : k ∈ tenKeys) :
    (dictSet d k v).map Prod.fst = tenKeys := by
  rw [dictSet_keys_of_mem d k v (by rw [hd]; exact hk), hd]

/-! ## Keys are preserved by every extraction step -/

theorem applyInvoiceNumber_keys (u : List Char) (d : List (String × String))
    (hd : d.map Prod.fst = tenKeys) : (applyInvoiceNumber u d).map Prod.fst = tenKeys := by
  unfold applyInvoiceNumber
  repeat' split
  all_goals first
    | exact hd
    | exact keys_after_set _ _ _ hd (by decide)

theorem applyDates_keys (s : List Char) (d : List (String × String))
    (hd : d.map Prod.fst = tenKeys) : (applyDates s d).map Prod.fst = tenKeys := by
  unfold applyDates
  split
  · exact hd
  · exact keys_after_set _ _ _ (keys_after_set _ _ _ hd (by decide)) (by decide)

theorem applyVendor_keys (lines : List (List Char)) (d : List (String × String))
    (hd : d.map Prod.fst = tenKeys) : (applyVendor lines d).map Prod.fst = tenKeys := by
  unfold applyVendor
  split
  · exact hd
  · exact keys_after_set _ _ _ (keys_after_set _ _ _ hd (by decide)) (by decide)

theorem applyBillTo_keys (lines : List (List Char)) (d : List (String × String))
    (hd : d.map Prod.fst = tenKeys) : (applyBillTo lines d).map Prod.fst = tenKeys := by
  unfold applyBillTo
  split
  · exact keys_after_set _ _ _ hd (by decide)
  · exact hd

theorem applyCurrency_keys (u : List Char) (d : List (String × String))
    (hd : d.map Prod.fst = tenKeys) : (applyCurrency u d).map Prod.fst = tenKeys := by
  unfold applyCurrency
  split
  · exact keys_after_set _ _ _ hd (by decide)
  · exact hd

theorem applyAmountDue_keys (u : List Char) (d : List (String × String))
    (hd : d.map Prod.fst = tenKeys) : (applyAmountDue u d).map Prod.fst = tenKeys := by
  unfold applyAmountDue
  repeat' split
  all_goals first
    | exact hd
    | exact keys_after_set _ _ _ hd (by decide)

theorem applyTotalAmount_keys (u : List Char) (d : List (String × String))
    (hd : d.map Prod.fst = tenKeys) : (applyTotalAmount u d).map Prod.fst = tenKeys := by
  unfold applyTotalAmount
  repeat' split
  all_goals first
    | exact hd
    | exact keys_after_set _ _ _ hd (by decide)
    | exact applyAmountDue_keys u d hd

theorem applySubtotal_keys (u : List Char) (d : List (String × String))
    (hd : d.map Prod.fst = tenKeys) : (applySubtotal u d).map Prod.fst = tenKeys := by
  unfold applySubtotal
  repeat' split
  all_goals first
    | exact hd
    | exact keys_after_set _ _ _ hd (by decide)

theorem applyTax_keys (u : List Char) (d : List (String × String))
    (hd : d.map Prod.fst = tenKeys) : (applyTax u d).map Prod.fst = tenKeys := by
  unfold applyTax
  repeat' split
  all_goals first
    | exact hd
    | exact keys_after_set _ _ _ hd (by decide)

/-! ## Reads of other keys are unchanged by each extraction step -/

theorem applyInvoiceNumber_get_ne (u : List Char) (d : List (String × String))
    (kq : String) (h : ¬ kq = "invoice_number") :
    dictGet (applyInvoiceNumber u d) kq = dictGet d kq := by
  unfold applyInvoiceNumber
  repeat' split
  all_goals first
    | rfl
    | exact dictGet_dictSet_ne _ _ _ _ h

theorem applyDates_get_ne (s : List Char) (d : List (String × String))
    (kq : String) (h1 : ¬ kq = "invoice_date") (h2 : ¬ kq = "due_date") :
    dictGet (applyDates s d) kq = dictGet d kq := by
  unfold applyDates
  split
  · rfl
  · rw [dictGet_dictSet_ne _ _ _ _ h2, dictGet_dictSet_ne _ _ _ _ h1]

theorem applyVendor_get_ne (lines : List (List Char)) (d : List (String × String))
    (kq : String) (h1 : ¬ kq = "vendor_name") (h2 : ¬ kq = "vendor_address") :
    dictGet (applyVendor lines d) kq = dictGet d kq := by
  unfold applyVendor
  split
  · rfl
  · rw [dictGet_dictSet_ne _ _ _ _ h2, dictGet_dictSet_ne _ _ _ _ h1]

theorem applyBillTo_get_ne (lines : List (List Char)) (d : List (String × String))
    (kq : String) (h : ¬ kq = "bill_to") :
    dictGet (applyBillTo lines d) kq = dictGet d kq := by
  unfold applyBillTo
  split
  · exact dictGet_dictSet_ne _ _ _ _ h
  · rfl

theorem applyCurrency_get_ne (u : List Char) (d : List (String × String))
    (kq : String) (h : ¬ kq = "currency") :
    dictGet (applyCurrency u d) kq = dictGet d kq := by
  unfold applyCurrency
  split
  · exact dictGet_dictSet_ne _ _ _ _ h
  · rfl

theorem applyAmountDue_get_ne (u : List Char) (d : List (String × String))
    (kq : String) (h : ¬ kq = "total_amount") :
    dictGet (applyAmountDue u d) kq = dictGet d kq := by
  unfold applyAmountDue
  repeat' split
  all_goals first
    | rfl
    | exact dictGet_dictSet_ne _ _ _ _ h

theorem applyTotalAmount_get_ne (u : List Char) (d : List (String × String))
    (kq : String) (h : ¬ kq = "total_amount") :
    dictGet (applyTotalAmount u d) kq = dictGet d kq := by
  unfold applyTotalAmount
  repeat' split
  all_goals first
    | rfl
    | exact dictGet_dictSet_ne _ _ _ _ h
    | exact applyAmountDue_get_ne u d kq h

theorem applySubtotal_get_ne (u : List Char) (d : List (String × String))
    (kq : String) (h : ¬ kq = "subtotal") :
    dictGet (applySubtotal u d) kq = dictGet d kq := by
  unfold applySubtotal
  repeat' split
  all_goals first
    | rfl
    | exact dictGet_dictSet_ne _ _ _ _ h

theorem applyTax_get_ne (u : List Char) (d : List (String × String))
    (kq : String) (h : ¬ kq = "tax_amount") :
    dictGet (applyTax u d) kq = dictGet d kq := by
  unfold applyTax
  repeat' split
  all_goals first
    | rfl
    | exact dictGet_dictSet_ne _ _ _ _ h

/-! ## Value of the fields each step sets -/


theorem applyInvoiceNumber_get_self (u : List Char) (d : List (String × String)) :
    dictGet (applyInvoiceNumber u d) "invoice_number" =
      match invFirstMatch u with
      | some cap => (pyStrip cap).asString
      | none => dictGet d "invoice_number" := by
  unfold applyInvoiceNumber invFirstMatch
  cases reSearchCap invoicePre1 invGroup u with
  | some cap => simp [dictGet_dictSet_self]
  | none =>
    cases reSearchCap invoicePre2 invGroup u with
    | some cap => simp [dictGet_dictSet_self]
    | none =>
      cases reSearchCap invoicePre3 invGroup u with
      | some cap => simp [dictGet_dictSet_self]
      | none =>
        cases reSearchCap invoicePre4 invGroup u with
        | some cap => simp [dictGet_dictSet_self]
        | none => simp

theorem getD_zero_eq_headD {α : Type} (l : List α) (x : α) : l.getD 0 x = l.headD x := by
  cases l <;> rfl

theorem getD_one_eq_drop_headD {α : Type} (l : List α) (x : α) :
    l.getD 1 x = (l.drop 1).headD x := by
  cases l with
  | nil => rfl
  | cons a t => cases t <;> rfl

theorem applyDates_get_invoice_date (s : List Char) (d : List (String × String)) :
    dictGet (applyDates s d) "invoice_date" =
      if (datesFound s).isEmpty then dictGet d "invoice_date"
      else ((datesFound s).headD []).asString := by
  unfold applyDates
  cases hde : (datesFound s).isEmpty with
  | true => simp [hde]
  | false =>
      have hlen : (datesFound s).length > 0 := by
        cases hdd : datesFound s with
        | nil => rw [hdd] at hde; simp at hde
        | cons a t => simp [hdd]
      simp only [hde, if_false, Bool.false_eq_true]
      rw [dictGet_dictSet_ne _ _ _ _ (by decide), dictGet_dictSet_self, if_pos hlen,
        getD_zero_eq_headD]

theorem applyDates_get_due_date (s : List Char) (d : List (String × String)) :
    dictGet (applyDates s d) "due_date" =
      if (datesFound s).isEmpty then dictGet d "due_date"
      else (((datesFound s).drop 1).headD []).asString := by
  unfold applyDates
  cases hde : (datesFound s).isEmpty with
  | true => simp [hde]
  | false =>
      simp only [hde, if_false, Bool.false_eq_true]
      rw [dictGet_dictSet_self]
      by_cases hlen : (datesFound s).length > 1
      · rw [if_pos hlen, getD_one_eq_drop_headD]
      · have hnil : ((datesFound s).drop 1).headD ([] : List Char) = [] := by
          cases hdd : datesFound s with
          | nil => rfl
          | cons a t =>
              cases t with
              | nil => rfl
              | cons b t2 => rw [hdd] at hlen; simp at hlen
        rw [if_neg hlen, hnil]
        rfl


theorem applyTotalAmount_get_self (u : List Char) (d : List (String × String)) :
    dictGet (applyTotalAmount u d) "total_amount" =
      match ((totalCandidates u).filter amountOk).head? with
      | some a => a.asString
      | none => dictGet d "total_amount" := by
  unfold applyTotalAmount applyAmountDue totalCandidates
  cases reSearchCap totalPre amountGroup u with
  | some cap1 =>
      cases h1 : amountOk (stripAmountChars cap1) with
      | true => simp [h1, dictGet_dictSet_self]
      | false =>
          cases reSearchCap amountDuePre amountGroup u with
          | some cap2 =>
              cases h2 : amountOk (stripAmountChars cap2) with
              | true => simp [h1, h2, dictGet_dictSet_self]
              | false => simp [h1, h2]
          | none => simp [h1]
  | none =>
      cases reSearchCap amountDuePre amountGroup u with
      | some cap2 =>
          cases h2 : amountOk (stripAmountChars cap2) with
          | true => simp [h2, dictGet_dictSet_self]
          | false => simp [h2]
      | none => simp

/-! ## The value of each claim-relevant field of the full extraction -/

theorem extract_get_invoice_number (t : String) :
    dictGet (extract_invoice_fields t) "invoice_number" =
      match invFirstMatch (upperCL t.toList) with
      | some cap => (pyStrip cap).asString
      | none => "" := by
  show dictGet (applyTax _ (applySubtotal _ (applyTotalAmount _ (applyCurrency _
    (applyBillTo _ (applyVendor _ (applyDates _ (applyInvoiceNumber _ initFields)))))))) _ = _
  rw [applyTax_get_ne _ _ _ (by decide), applySubtotal_get_ne _ _ _ (by decide),
    applyTotalAmount_get_ne _ _ _ (by decide), applyCurrency_get_ne _ _ _ (by decide),
    applyBillTo_get_ne _ _ _ (by decide), applyVendor_get_ne _ _ _ (by decide) (by decide),
    applyDates_get_ne _ _ _ (by decide) (by decide), applyInvoiceNumber_get_self]
  cases invFirstMatch (upperCL t.toList) <;> rfl

theorem extract_get_invoice_date (t : String) :
    dictGet (extract_invoice_fields t) "invoice_date" =
      ((datesFound t.toList).headD []).asString := by
  show dictGet (applyTax _ (applySubtotal _ (applyTotalAmount _ (applyCurrency _
    (applyBillTo _ (applyVendor _ (applyDates _ (applyInvoiceNumber _ initFields)))))))) _ = _
  rw [applyTax_get_ne _ _ _ (by decide), applySubtotal_get_ne _ _ _ (by decide),
    applyTotalAmount_get_ne _ _ _ (by decide), applyCurrency_get_ne _ _ _ (by decide),
    applyBillTo_get_ne _ _ _ (by decide), applyVendor_get_ne _ _ _ (by decide) (by decide),
    applyDates_get_invoice_date,
    applyInvoiceNumber_get_ne _ _ _ (by decide)]
  cases hde : (datesFound t.toList).isEmpty with
  | true =>
      have : datesFound t.toList = [] := by
        cases hdd : datesFound t.toList with
        | nil => rfl
        | cons a t2 => rw [hdd] at hde; simp at hde
      rw [if_pos rfl, this]
      rfl
  | false => rw [if_neg (by decide)]

theorem extract_get_due_date (t : String) :
    dictGet (extract_invoice_fields t) "due_date" =
      (((datesFound t.toList).drop 1).headD []).asString := by
  show dictGet (applyTax _ (applySubtotal _ (applyTotalAmount _ (applyCurrency _
    (applyBillTo _ (applyVendor _ (applyDates _ (applyInvoiceNumber _ initFields)))))))) _ = _
  rw [applyTax_get_ne _ _ _ (by decide), applySubtotal_get_ne _ _ _ (by decide),
    applyTotalAmount_get_ne _ _ _ (by decide), applyCurrency_get_ne _ _ _ (by decide),
    applyBillTo_get_ne _ _ _ (by decide), applyVendor_get_ne _ _ _ (by decide) (by decide),
    applyDates_get_due_date,
    applyInvoiceNumber_get_ne _ _ _ (by decide)]
  cases hde : (datesFound t.toList).isEmpty with
  | true =>
      have : datesFound t.toList = [] := by
        cases hdd : datesFound t.toList with
        | nil => rfl
        | cons a t2 => rw [hdd] at hde; simp at hde
      rw [if_pos rfl, this]
      rfl
  | false => rw [if_neg (by decide)]

theorem extract_get_total_amount (t : String) :
    dictGet (extract_invoice_fields t) "total_amount" =
      match ((totalCandidates (upperCL t.toList)).filter amountOk).head? with
      | some a => a.asString
      | none => "" := by
  show dictGet (applyTax _ (applySubtotal _ (applyTotalAmount _ (applyCurrency _
    (applyBillTo _ (applyVendor _ (applyDates _ (applyInvoiceNumber _ initFields)))))))) _ = _
  rw [applyTax_get_ne _ _ _ (by decide), applySubtotal_get_ne _ _ _ (by decide),
    applyTotalAmount_get_self]
  cases ((totalCandidates (upperCL t.toList)).filter amountOk).head? with
  | some a => rfl
  | none =>
      rw [applyCurrency_get_ne _ _ _ (by decide), applyBillTo_get_ne _ _ _ (by decide),
        applyVendor_get_ne _ _ _ (by decide) (by decide),
        applyDates_get_ne _ _ _ (by decide) (by decide),
        applyInvoiceNumber_get_ne _ _ _ (by decide)]
      rfl


/-! ## Evaluating the patterns on strings with a symbolic tail

The lemmas below compute searches over strings of the shape
concrete-prefix ++ suffix, where the suffix is an arbitrary (or
all-digit) string.  They drive the per-family claims about inputs such as
a Subtotal line followed by any number. -/

theorem head?_append_eq {α : Type} (l1 l2 : List α) :
    (l1 ++ l2).head? =
      match l1.head? with
      | some x => some x
      | none => l2.head? := by
  cases l1 <;> rfl

theorem head?_catMap {α β : Type} (f : α → List β) (l : List α) (a : α) (b : β)
    (h1 : l.head? = some a) (h2 : (f a).head? = some b) : (catMap f l).head? = some b := by
  cases l with
  | nil => cases h1
  | cons x xs =>
      have hx : x = a := by injection h1
      subst hx
      show (f x ++ catMap f xs).head? = some b
      rw [head?_append_eq, h2]

theorem reMatchHere_none (pre grp : RE) (s : List Char) (h : matchRE pre s = []) :
    reMatchHere pre grp s = none := by
  unfold reMatchHere
  rw [h]
  rfl

theorem reSearchCap_cons_none (pre grp : RE) (c : Char) (rest : List Char)
    (h : reMatchHere pre grp (c :: rest) = none) :
    reSearchCap pre grp (c :: rest) = reSearchCap pre grp rest := by
  rw [show reSearchCap pre grp (c :: rest) =
      (match reMatchHere pre grp (c :: rest) with
        | some (n1, n2) => some (((c :: rest).drop n1).take n2)
        | none => reSearchCap pre grp rest) from rfl, h]

theorem reSearchCap_cons_some (pre grp : RE) (c : Char) (rest : List Char) (n1 n2 : Nat)
    (h : reMatchHere pre grp (c :: rest) = some (n1, n2)) :
    reSearchCap pre grp (c :: rest) = some (((c :: rest).drop n1).take n2) := by
  rw [show reSearchCap pre grp (c :: rest) =
      (match reMatchHere pre grp (c :: rest) with
        | some (n1, n2) => some (((c :: rest).drop n1).take n2)
        | none => reSearchCap pre grp rest) from rfl, h]

theorem matchRE_seq_lit_nil (w : List Char) (k : RE) (s : List Char)
    (h : w.isPrefixOf s = false) : matchRE (RE.seq (RE.lit w) k) s = [] := by
  simp [matchRE, h, catMap]

theorem searchInv1_header (rest : List Char) :
    reSearchCap invoicePre1 invGroup ("INVOICE DATE: ".toList ++ rest)
      = some "DATE".toList := by
  have hpre : matchRE invoicePre1 ("INVOICE DATE: ".toList ++ rest) = [8, 8, 8, 7] := by
    simp [invoicePre1, seqs, matchRE, litS, wsStar, optRE, catMap, clsLens, takeRun,
      List.isPrefixOf, isSpaceChar, List.range_succ]
  have hgrp : matchRE invGroup ("DATE: ".toList ++ rest) = [4, 3, 2, 1] := by
    simp [invGroup, matchRE, clsLens, takeRun, isUpperAlnumDash, List.range_succ]
  have hm : reMatchHere invoicePre1 invGroup ("INVOICE DATE: ".toList ++ rest)
      = some (8, 4) := by
    unfold reMatchHere
    rw [hpre]
    refine head?_catMap _ _ 8 (8, 4) rfl ?_
    rw [show ("INVOICE DATE: ".toList ++ rest).drop 8 = "DATE: ".toList ++ rest from rfl, hgrp]
    rfl
  exact (reSearchCap_cons_some invoicePre1 invGroup 'I'
    ("NVOICE DATE: ".toList ++ rest) 8 4 hm).trans rfl

theorem toList_append_str (a b : String) : (a ++ b).toList = a.toList ++ b.toList := by
  simp [String.toList, String.data_append]

theorem upperCL_append (a b : List Char) : upperCL (a ++ b) = upperCL a ++ upperCL b := by
  simp [upperCL]


theorem catMap_singleton {α β : Type} (f : α → List β) (a : α) : catMap f [a] = f a := by
  simp [catMap]

theorem matchRE_seq (r1 r2 : RE) (s : List Char) :
    matchRE (RE.seq r1 r2) s =
      catMap (fun n1 => (matchRE r2 (s.drop n1)).map (fun n2 => n1 + n2)) (matchRE r1 s) := rfl

theorem matchRE_cls_some (p : Char → Bool) (lo h : Nat) (s : List Char) :
    matchRE (RE.cls p lo (some h)) s = clsLens lo (min h (takeRun p s)) := rfl

theorem matchRE_cls_none (p : Char → Bool) (lo : Nat) (s : List Char) :
    matchRE (RE.cls p lo none) s = clsLens lo (takeRun p s) := rfl

theorem digit_ne_char (c ch : Char) (h : c.isDigit = true) (hch : ch.isDigit = false) :
    ¬ c = ch := by
  intro he
  rw [he, hch] at h
  cases h

theorem toUpper_digit (c : Char) (h : c.isDigit = true) : Char.toUpper c = c := by
  have hb : 48 ≤ c.toNat ∧ c.toNat ≤ 57 := by
    simp [Char.isDigit] at h
    exact ⟨UInt32.le_toNat_of_le (by decide) h.1, UInt32.toNat_le_of_le (by decide) h.2⟩
  unfold Char.toUpper
  rw [if_neg]
  omega

theorem digit_not_space (c : Char) (h : c.isDigit = true) : isSpaceChar c = false := by
  simp [isSpaceChar, digit_ne_char c ' ' h (by decide), digit_ne_char c '\t' h (by decide),
    digit_ne_char c '\n' h (by decide), digit_ne_char c '\r' h (by decide),
    digit_ne_char c '\x0b' h (by decide), digit_ne_char c '\x0c' h (by decide)]

theorem digit_not_cur (c : Char) (h : c.isDigit = true) : isCurrencySymbol c = false := by
  simp [isCurrencySymbol, digit_ne_char c '£' h (by decide), digit_ne_char c '$' h (by decide),
    digit_ne_char c '€' h (by decide)]

theorem digit_dc (c : Char) (h : c.isDigit = true) : isDigitOrComma c = true := by
  simp [isDigitOrComma, h]

theorem digits_takeRun_space (ds : List Char) (h : ∀ c ∈ ds, c.isDigit = true) :
    takeRun isSpaceChar ds = 0 := by
  cases ds with
  | nil => rfl
  | cons c x => simp [takeRun, digit_not_space c (h c (by simp))]

theorem digits_takeRun_cur (ds : List Char) (h : ∀ c ∈ ds, c.isDigit = true) :
    takeRun isCurrencySymbol ds = 0 := by
  cases ds with
  | nil => rfl
  | cons c x => simp [takeRun, digit_not_cur c (h c (by simp))]

theorem digits_takeRun_dc (ds : List Char) (h : ∀ c ∈ ds, c.isDigit = true) :
    takeRun isDigitOrComma ds = ds.length := by
  induction ds with
  | nil => rfl
  | cons c x ih =>
      simp [takeRun, digit_dc c (h c (by simp))]
      exact ih (fun a ha => h a (by simp [ha]))

theorem digits_upper (ds : List Char) (h : ∀ c ∈ ds, c.isDigit = true) :
    upperCL ds = ds := by
  induction ds with
  | nil => rfl
  | cons c x ih =>
      simp only [upperCL, List.map_cons]
      rw [toUpper_digit c (h c (by simp))]
      have := ih (fun a ha => h a (by simp [ha]))
      simp only [upperCL] at this
      rw [this]

theorem digits_strip (ds : List Char) (h : ∀ c ∈ ds, c.isDigit = true) :
    stripAmountChars ds = ds := by
  unfold stripAmountChars
  rw [List.filter_eq_self]
  intro c hc
  simp [digit_not_cur c (h c hc), digit_not_space c (h c hc),
    digit_ne_char c ',' (h c hc) (by decide)]

theorem digits_amountOk (ds : List Char) (hne : ds ≠ []) (h : ∀ c ∈ ds, c.isDigit = true) :
    amountOk ds = true := by
  unfold amountOk pyIsDigit
  have hf : ds.filter (fun c => !(c = '.')) = ds := by
    rw [List.filter_eq_self]
    intro c hc
    simp [digit_ne_char c '.' (h c hc) (by decide)]
  rw [hf]
  simp [hne, List.all_eq_true]
  intro c hc
  exact h c hc

theorem head?_range_succ (m : Nat) : (List.range (m + 1)).head? = some 0 := by
  induction m with
  | zero => rfl
  | succ k ih =>
      rw [List.range_succ, head?_append_eq, ih]

theorem clsLens_one_head (n : Nat) (hn : 0 < n) : (clsLens 1 n).head? = some n := by
  unfold clsLens
  obtain ⟨m, rfl⟩ : ∃ m, n = m + 1 := ⟨n - 1, by omega⟩
  rw [show m + 1 + 1 - 1 = m + 1 from rfl, List.head?_map, head?_range_succ]
  simp

theorem amountGroup_head (ds : List Char) (hne : ds ≠ []) (h : ∀ c ∈ ds, c.isDigit = true) :
    (matchRE amountGroup ds).head? = some ds.length := by
  have hlen : 0 < ds.length := List.length_pos.mpr hne
  have hA : matchRE (RE.cls isCurrencySymbol 0 (some 1)) ds = [0] := by
    rw [matchRE_cls_some, digits_takeRun_cur ds h]
    rfl
  have hB : matchRE wsStar ds = [0] := by
    rw [show wsStar = RE.cls isSpaceChar 0 none from rfl, matchRE_cls_none,
      digits_takeRun_space ds h]
    rfl
  have hC : matchRE (RE.cls isDigitOrComma 1 none) ds = clsLens 1 ds.length := by
    rw [matchRE_cls_none, digits_takeRun_dc ds h]
  have hf3 : ((matchRE (RE.seq (RE.cls (fun c => c = '.') 0 (some 1)) (RE.cls Char.isDigit 0 none))
      (ds.drop ds.length)).map (fun n2 => ds.length + n2)).head? = some (ds.length + 0) := by
    rw [List.drop_length]
    rfl
  rw [show amountGroup = RE.seq (RE.cls isCurrencySymbol 0 (some 1)) (RE.seq wsStar
    (RE.seq (RE.cls isDigitOrComma 1 none) (RE.seq (RE.cls (fun c => c = '.') 0 (some 1))
      (RE.cls Char.isDigit 0 none)))) from rfl]
  rw [matchRE_seq, hA, catMap_singleton, List.drop_zero, List.head?_map]
  rw [matchRE_seq, hB, catMap_singleton, List.drop_zero, List.head?_map]
  rw [matchRE_seq, hC]
  rw [head?_catMap _ _ ds.length (ds.length + 0) (clsLens_one_head _ hlen) hf3]
  simp

theorem matchRE_totalPre_digits (ds : List Char) (h : ∀ c ∈ ds, c.isDigit = true) :
    matchRE totalPre ("TOTAL: ".toList ++ ds) = [7, 6, 5] := by
  simp [totalPre, seqs, matchRE, litS, wsStar, currencyTagOpt, optRE, catMap, clsLens, takeRun,
    List.isPrefixOf, isSpaceChar, digits_takeRun_space ds h, List.range_succ]

theorem matchRE_subtotalPre_digits (ds : List Char) (h : ∀ c ∈ ds, c.isDigit = true) :
    matchRE subtotalPre ("SUBTOTAL: ".toList ++ ds) = [10, 9, 8] := by
  simp [subtotalPre, seqs, matchRE, litS, wsStar, optRE, catMap, clsLens, takeRun,
    List.isPrefixOf, isSpaceChar, digits_takeRun_space ds h, List.range_succ]

theorem reMatchHere_totalPre_digits (ds : List Char) (hne : ds ≠ [])
    (h : ∀ c ∈ ds, c.isDigit = true) :
    reMatchHere totalPre amountGroup ("TOTAL: ".toList ++ ds) = some (7, ds.length) := by
  unfold reMatchHere
  rw [matchRE_totalPre_digits ds h]
  refine head?_catMap _ _ 7 (7, ds.length) rfl ?_
  rw [show ("TOTAL: ".toList ++ ds).drop 7 = ds from rfl, List.head?_map,
    amountGroup_head ds hne h]
  rfl

theorem reMatchHere_subtotalPre_digits (ds : List Char) (hne : ds ≠ [])
    (h : ∀ c ∈ ds, c.isDigit = true) :
    reMatchHere subtotalPre amountGroup ("SUBTOTAL: ".toList ++ ds)
      = some (10, ds.length) := by
  unfold reMatchHere
  rw [matchRE_subtotalPre_digits ds h]
  refine head?_catMap _ _ 10 (10, ds.length) rfl ?_
  rw [show ("SUBTOTAL: ".toList ++ ds).drop 10 = ds from rfl, List.head?_map,
    amountGroup_head ds hne h]
  rfl

theorem searchTotal_subtotal (ds : List Char) (hne : ds ≠ [])
    (h : ∀ c ∈ ds, c.isDigit = true) :
    reSearchCap totalPre amountGroup ("SUBTOTAL: ".toList ++ ds) = some ds := by
  have hs : "SUBTOTAL: ".toList ++ ds = 'S' :: 'U' :: 'B' :: ("TOTAL: ".toList ++ ds) := rfl
  rw [hs]
  have hpf1 : matchRE totalPre ('U' :: 'B' :: ("TOTAL: ".toList ++ ds)) = [] := by
    rw [show totalPre = RE.seq (RE.lit "TOTAL".toList) (seqs [wsStar, currencyTagOpt,
      optRE (litS ":"), wsStar]) from rfl]
    exact matchRE_seq_lit_nil _ _ _ (by simp [List.isPrefixOf])
  have hpf0 : matchRE totalPre ('S' :: 'U' :: 'B' :: ("TOTAL: ".toList ++ ds)) = [] := by
    rw [show totalPre = RE.seq (RE.lit "TOTAL".toList) (seqs [wsStar, currencyTagOpt,
      optRE (litS ":"), wsStar]) from rfl]
    exact matchRE_seq_lit_nil _ _ _ (by simp [List.isPrefixOf])
  have hpf2 : matchRE totalPre ('B' :: ("TOTAL: ".toList ++ ds)) = [] := by
    rw [show totalPre = RE.seq (RE.lit "TOTAL".toList) (seqs [wsStar, currencyTagOpt,
      optRE (litS ":"), wsStar]) from rfl]
    exact matchRE_seq_lit_nil _ _ _ (by simp [List.isPrefixOf])
  rw [reSearchCap_cons_none _ _ _ _ (reMatchHere_none _ _ _ hpf0),
    reSearchCap_cons_none _ _ _ _ (reMatchHere_none _ _ _ hpf1),
    reSearchCap_cons_none _ _ _ _ (reMatchHere_none _ _ _ hpf2)]
  have hstep := reSearchCap_cons_some totalPre amountGroup 'T' ("OTAL: ".toList ++ ds)
    7 ds.length (reMatchHere_totalPre_digits ds hne h)
  exact hstep.trans (by
    rw [show (('T' :: ("OTAL: ".toList ++ ds)).drop 7) = ds from rfl, List.take_length])

theorem searchSubtotal_subtotal (ds : List Char) (hne : ds ≠ [])
    (h : ∀ c ∈ ds, c.isDigit = true) :
    reSearchCap subtotalPre amountGroup ("SUBTOTAL: ".toList ++ ds) = some ds := by
  have hstep := reSearchCap_cons_some subtotalPre amountGroup 'S' ("UBTOTAL: ".toList ++ ds)
    10 ds.length (reMatchHere_subtotalPre_digits ds hne h)
  exact hstep.trans (by
    rw [show (('S' :: ("UBTOTAL: ".toList ++ ds)).drop 10) = ds from rfl, List.take_length])

theorem searchStep_noAmount (c : Char) (x : List Char)
    (hpf : "AMOUNT".toList.isPrefixOf (c :: x) = false) :
    reSearchCap amountDuePre amountGroup (c :: x)
      = reSearchCap amountDuePre amountGroup x :=
  reSearchCap_cons_none _ _ _ _ (reMatchHere_none _ _ _ (by
    rw [show amountDuePre = RE.seq (RE.lit "AMOUNT".toList) (seqs [wsPlus, litS "DUE", wsStar,
      currencyTagOpt, optRE (litS ":"), wsStar]) from rfl]
    exact matchRE_seq_lit_nil _ _ _ hpf))

theorem searchAmountDue_digits (ds : List Char) (h : ∀ c ∈ ds, c.isDigit = true) :
    reSearchCap amountDuePre amountGroup ds = none := by
  induction ds with
  | nil => rfl
  | cons c x ih =>
      rw [searchStep_noAmount c x (by
        have hA : ('A' == c) = false :=
          beq_eq_false_iff_ne.mpr (Ne.symm (digit_ne_char c 'A' (h c (by simp)) (by decide)))
        simp [List.isPrefixOf, hA])]
      exact ih (fun a ha => h a (by simp [ha]))

theorem searchAmountDue_subtotal (ds : List Char) (h : ∀ c ∈ ds, c.isDigit = true) :
    reSearchCap amountDuePre amountGroup ("SUBTOTAL: ".toList ++ ds) = none := by
  rw [show "SUBTOTAL: ".toList ++ ds
    = 'S' :: 'U' :: 'B' :: 'T' :: 'O' :: 'T' :: 'A' :: 'L' :: ':' :: ' ' :: ds from rfl]
  rw [searchStep_noAmount _ _ (by simp [List.isPrefixOf]),
    searchStep_noAmount _ _ (by simp [List.isPrefixOf]),
    searchStep_noAmount _ _ (by simp [List.isPrefixOf]),
    searchStep_noAmount _ _ (by simp [List.isPrefixOf]),
    searchStep_noAmount _ _ (by simp [List.isPrefixOf]),
    searchStep_noAmount _ _ (by simp [List.isPrefixOf]),
    searchStep_noAmount _ _ (by simp [List.isPrefixOf]),
    searchStep_noAmount _ _ (by simp [List.isPrefixOf]),
    searchStep_noAmount _ _ (by simp [List.isPrefixOf]),
    searchStep_noAmount _ _ (by simp [List.isPrefixOf])]
  exact searchAmountDue_digits ds h

theorem applySubtotal_get_self (u : List Char) (d : List (String × String)) :
    dictGet (applySubtotal u d) "subtotal" =
      match reSearchCap subtotalPre amountGroup u with
      | some cap =>
          if amountOk (stripAmountChars cap) then (stripAmountChars cap).asString
          else dictGet d "subtotal"
      | none => dictGet d "subtotal" := by
  unfold applySubtotal
  cases reSearchCap subtotalPre amountGroup u with
  | some cap =>
      cases hok : amountOk (stripAmountChars cap) with
      | true => simp [hok, dictGet_dictSet_self]
      | false => simp [hok]
  | none => rfl

theorem extract_get_subtotal (t : String) :
    dictGet (extract_invoice_fields t) "subtotal" =
      match reSearchCap subtotalPre amountGroup (upperCL t.toList) with
      | some cap =>
          if amountOk (stripAmountChars cap) then (stripAmountChars cap).asString else ""
      | none => "" := by
  show dictGet (applyTax _ (applySubtotal _ (applyTotalAmount _ (applyCurrency _
    (applyBillTo _ (applyVendor _ (applyDates _ (applyInvoiceNumber _ initFields)))))))) _ = _
  rw [applyTax_get_ne _ _ _ (by decide), applySubtotal_get_self]
  have hrest : dictGet (applyTotalAmount (upperCL t.toList) (applyCurrency (upperCL t.toList)
      (applyBillTo (splitNl t.toList) (applyVendor (splitNl t.toList) (applyDates t.toList
        (applyInvoiceNumber (upperCL t.toList) initFields)))))) "subtotal" = "" := by
    rw [applyTotalAmount_get_ne _ _ _ (by decide), applyCurrency_get_ne _ _ _ (by decide),
      applyBillTo_get_ne _ _ _ (by decide), applyVendor_get_ne _ _ _ (by decide) (by decide),
      applyDates_get_ne _ _ _ (by decide) (by decide),
      applyInvoiceNumber_get_ne _ _ _ (by decide)]
    rfl
  simp only [String.toList] at hrest
  cases reSearchCap subtotalPre amountGroup (upperCL t.toList) with
  | some cap =>
      cases hok : amountOk (stripAmountChars cap) with
      | true => simp [hok]
      | false => simp [hok, hrest]
  | none => simp [hrest]

theorem subtotal_line_sets_total_amount (ds : List Char) (hne : ds ≠ []) (h : ∀ c ∈ ds, c.isDigit = true) :
    dictGet (extract_invoice_fields ("Subtotal: " ++ ds.asString)) "total_amount" = ds.asString
    ∧ dictGet (extract_invoice_fields ("Subtotal: " ++ ds.asString)) "subtotal"
        = ds.asString := by
  have hu : upperCL ("Subtotal: " ++ ds.asString).toList = "SUBTOTAL: ".toList ++ ds := by
    rw [toList_append_str, upperCL_append,
      show upperCL "Subtotal: ".toList = "SUBTOTAL: ".toList from rfl,
      show (ds.asString).toList = ds from rfl, digits_upper ds h]
  constructor
  · rw [extract_get_total_amount, hu]
    unfold totalCandidates
    rw [searchTotal_subtotal ds hne h, searchAmountDue_subtotal ds h]
    simp [List.filterMap_cons, digits_strip ds h, digits_amountOk ds hne h]
  · rw [extract_get_subtotal, hu, searchSubtotal_subtotal ds hne h]
    simp [digits_strip ds h, digits_amountOk ds hne h]


/-! ## Evaluating the date patterns on a symbolic all-digit date

These lemmas run the three findall collections on a date written with
arbitrary digit characters in the shape dd/mm/yyyy, showing the first
pattern collects the whole date, the textual pattern collects nothing,
and the year-first pattern collects the truncated eight-character
prefix. -/

theorem digit_not_sep (c : Char) (h : c.isDigit = true) : isDateSep c = false := by
  simp [isDateSep, digit_ne_char c '/' h (by decide), digit_ne_char c '-' h (by decide),
    digit_ne_char c '.' h (by decide)]

theorem takeRun_cons_false (p : Char → Bool) (c : Char) (rest : List Char) (h : p c = false) :
    takeRun p (c :: rest) = 0 := by
  simp [takeRun, h]

theorem takeRun_eq_zero_of_all (p : Char → Bool) (l : List Char)
    (h : ∀ c ∈ l, p c = false) : takeRun p l = 0 := by
  cases l with
  | nil => rfl
  | cons c x => exact takeRun_cons_false p c x (h c (by simp))

theorem catMap_nil_of {α β : Type} (f : α → List β) (l : List α)
    (h : ∀ a ∈ l, f a = []) : catMap f l = [] := by
  induction l with
  | nil => rfl
  | cons a x ih =>
      show f a ++ catMap f x = []
      rw [h a (by simp), ih (fun b hb => h b (by simp [hb]))]
      rfl

theorem matchRE_seq_cls_nil (p : Char → Bool) (lo : Nat) (hi : Option Nat) (k : RE)
    (s : List Char) (h : takeRun p s < lo) :
    matchRE (RE.seq (RE.cls p lo hi) k) s = [] := by
  rw [matchRE_seq]
  have hcl : matchRE (RE.cls p lo hi) s = [] := by
    cases hi with
    | none =>
        rw [matchRE_cls_none]
        unfold clsLens
        rw [show takeRun p s + 1 - lo = 0 by omega]
        rfl
    | some hh =>
        rw [matchRE_cls_some]
        unfold clsLens
        rw [show min hh (takeRun p s) + 1 - lo = 0 by omega]
        rfl
  rw [hcl]
  rfl

theorem reFindAllAux_cons_none (grp : RE) (fuel : Nat) (c : Char) (rest : List Char)
    (h : (matchRE grp (c :: rest)).head? = none) :
    reFindAllAux grp (fuel + 1) (c :: rest) = reFindAllAux grp fuel rest := by
  rw [show reFindAllAux grp (fuel + 1) (c :: rest) =
      (match (matchRE grp (c :: rest)).head? with
        | some n => (c :: rest).take n :: reFindAllAux grp fuel ((c :: rest).drop (max n 1))
        | none => reFindAllAux grp fuel rest) from rfl, h]

theorem reFindAllAux_cons_some (grp : RE) (fuel : Nat) (c : Char) (rest : List Char) (n : Nat)
    (h : (matchRE grp (c :: rest)).head? = some n) :
    reFindAllAux grp (fuel + 1) (c :: rest)
      = (c :: rest).take n :: reFindAllAux grp fuel ((c :: rest).drop (max n 1)) := by
  rw [show reFindAllAux grp (fuel + 1) (c :: rest) =
      (match (matchRE grp (c :: rest)).head? with
        | some n => (c :: rest).take n :: reFindAllAux grp fuel ((c :: rest).drop (max n 1))
        | none => reFindAllAux grp fuel rest) from rfl, h]

theorem reFindAllAux_nil (grp : RE) (fuel : Nat) (h : matchRE grp [] = []) :
    reFindAllAux grp fuel [] = [] := by
  cases fuel with
  | zero =>
      rw [show reFindAllAux grp 0 [] =
        (match (matchRE grp []).head? with | some _ => [([] : List Char)] | none => []) from rfl, h]
      rfl
  | succ k =>
      rw [show reFindAllAux grp (k + 1) [] =
        (match (matchRE grp []).head? with | some _ => [([] : List Char)] | none => []) from rfl, h]
      rfl

theorem matchRE_d2_nospace (s : List Char) (hs : ∀ c ∈ s, isSpaceChar c = false) :
    matchRE datePat2 s = [] := by
  rw [show datePat2 = RE.seq (RE.cls Char.isDigit 1 (some 2)) (RE.seq wsPlus
    (RE.seq (RE.cls isAsciiLetter 3 (some 9)) (RE.seq wsPlus
      (RE.cls Char.isDigit 2 (some 4))))) from rfl]
  rw [matchRE_seq]
  apply catMap_nil_of
  intro n hn
  have hws : matchRE wsPlus (s.drop n) = [] := by
    rw [show wsPlus = RE.cls isSpaceChar 1 none from rfl, matchRE_cls_none,
      takeRun_eq_zero_of_all _ _ (fun c hc => hs c (List.mem_of_mem_drop hc))]
    rfl
  rw [matchRE_seq, hws]
  rfl

theorem reFindAllAux_d2_nospace (s : List Char) (hs : ∀ c ∈ s, isSpaceChar c = false) :
    ∀ fuel, reFindAllAux datePat2 fuel s = [] := by
  induction s with
  | nil =>
      intro fuel
      exact reFindAllAux_nil _ _ rfl
  | cons c x ih =>
      intro fuel
      cases fuel with
      | zero => rfl
      | succ k =>
          rw [reFindAllAux_cons_none _ k c x (by rw [matchRE_d2_nospace (c :: x) hs]; rfl)]
          exact ih (fun a ha => hs a (by simp [ha])) k

theorem matchRE_d1_at_date (a1 a2 b1 b2 c1 c2 c3 c4 : Char)
    (ha1 : a1.isDigit = true) (ha2 : a2.isDigit = true)
    (hb1 : b1.isDigit = true) (hb2 : b2.isDigit = true)
    (hc1 : c1.isDigit = true) (hc2 : c2.isDigit = true)
    (hc3 : c3.isDigit = true) (hc4 : c4.isDigit = true) :
    matchRE datePat1 [a1, a2, '/', b1, b2, '/', c1, c2, c3, c4] = [10, 9, 8] := by
  simp [datePat1, seqs, matchRE, catMap, clsLens, takeRun, List.range_succ,
    ha1, ha2, hb1, hb2, hc1, hc2, hc3, hc4,
    digit_not_sep a2 ha2, digit_not_sep b1 hb1, digit_not_sep b2 hb2,
    digit_not_sep c1 hc1, digit_not_sep c2 hc2,
    (by decide : Char.isDigit '/' = false), (by decide : isDateSep '/' = true)]

theorem matchRE_d3_at_date (a1 a2 b1 b2 c1 c2 c3 c4 : Char)
    (ha1 : a1.isDigit = true) (ha2 : a2.isDigit = true)
    (hb1 : b1.isDigit = true) (hb2 : b2.isDigit = true)
    (hc1 : c1.isDigit = true) (hc2 : c2.isDigit = true)
    (hc3 : c3.isDigit = true) (hc4 : c4.isDigit = true) :
    matchRE datePat3 [a1, a2, '/', b1, b2, '/', c1, c2, c3, c4] = [8, 7] := by
  simp [datePat3, seqs, matchRE, catMap, clsLens, takeRun, List.range_succ,
    ha1, ha2, hb1, hb2, hc1, hc2, hc3, hc4,
    digit_not_sep a2 ha2, digit_not_sep b1 hb1, digit_not_sep b2 hb2,
    digit_not_sep c1 hc1, digit_not_sep c2 hc2,
    (by decide : Char.isDigit '/' = false), (by decide : isDateSep '/' = true)]

theorem matchRE_d3_two_digits (c3 c4 : Char)
    (hc3 : c3.isDigit = true) (hc4 : c4.isDigit = true) :
    matchRE datePat3 [c3, c4] = [] := by
  simp [datePat3, seqs, matchRE, catMap, clsLens, takeRun, List.range_succ, hc3, hc4,
    digit_not_sep c4 hc4]

theorem findall_d1_date (a1 a2 b1 b2 c1 c2 c3 c4 : Char)
    (ha1 : a1.isDigit = true) (ha2 : a2.isDigit = true)
    (hb1 : b1.isDigit = true) (hb2 : b2.isDigit = true)
    (hc1 : c1.isDigit = true) (hc2 : c2.isDigit = true)
    (hc3 : c3.isDigit = true) (hc4 : c4.isDigit = true) :
    reFindAll datePat1 [a1, a2, '/', b1, b2, '/', c1, c2, c3, c4]
      = [[a1, a2, '/', b1, b2, '/', c1, c2, c3, c4]] := by
  have s1 : reFindAllAux datePat1 10 [a1, a2, '/', b1, b2, '/', c1, c2, c3, c4]
      = ([a1, a2, '/', b1, b2, '/', c1, c2, c3, c4].take 10)
        :: reFindAllAux datePat1 9 ([a1, a2, '/', b1, b2, '/', c1, c2, c3, c4].drop (max 10 1)) :=
    reFindAllAux_cons_some _ 9 _ _ 10
      (by rw [matchRE_d1_at_date a1 a2 b1 b2 c1 c2 c3 c4 ha1 ha2 hb1 hb2 hc1 hc2 hc3 hc4]; rfl)
  show reFindAllAux datePat1 10 [a1, a2, '/', b1, b2, '/', c1, c2, c3, c4] = _
  rw [s1, show [a1, a2, '/', b1, b2, '/', c1, c2, c3, c4].drop (max 10 1) = ([] : List Char)
    from rfl, reFindAllAux_nil datePat1 9 rfl]
  rfl

theorem findall_d2_date (a1 a2 b1 b2 c1 c2 c3 c4 : Char)
    (ha1 : a1.isDigit = true) (ha2 : a2.isDigit = true)
    (hb1 : b1.isDigit = true) (hb2 : b2.isDigit = true)
    (hc1 : c1.isDigit = true) (hc2 : c2.isDigit = true)
    (hc3 : c3.isDigit = true) (hc4 : c4.isDigit = true) :
    reFindAll datePat2 [a1, a2, '/', b1, b2, '/', c1, c2, c3, c4] = [] := by
  have hbody : ∀ c ∈ [a1, a2, '/', b1, b2, '/', c1, c2, c3, c4], isSpaceChar c = false := by
    intro c hc
    simp only [List.mem_cons, List.not_mem_nil, or_false] at hc
    rcases hc with rfl | rfl | rfl | rfl | rfl | rfl | rfl | rfl | rfl | rfl
    · exact digit_not_space _ ha1
    · exact digit_not_space _ ha2
    · decide
    · exact digit_not_space _ hb1
    · exact digit_not_space _ hb2
    · decide
    · exact digit_not_space _ hc1
    · exact digit_not_space _ hc2
    · exact digit_not_space _ hc3
    · exact digit_not_space _ hc4
  show reFindAllAux datePat2 10 [a1, a2, '/', b1, b2, '/', c1, c2, c3, c4] = _
  exact reFindAllAux_d2_nospace _ hbody 10

theorem findall_d3_date (a1 a2 b1 b2 c1 c2 c3 c4 : Char)
    (ha1 : a1.isDigit = true) (ha2 : a2.isDigit = true)
    (hb1 : b1.isDigit = true) (hb2 : b2.isDigit = true)
    (hc1 : c1.isDigit = true) (hc2 : c2.isDigit = true)
    (hc3 : c3.isDigit = true) (hc4 : c4.isDigit = true) :
    reFindAll datePat3 [a1, a2, '/', b1, b2, '/', c1, c2, c3, c4]
      = [[a1, a2, '/', b1, b2, '/', c1, c2]] := by
  have s1 : reFindAllAux datePat3 10 [a1, a2, '/', b1, b2, '/', c1, c2, c3, c4]
      = ([a1, a2, '/', b1, b2, '/', c1, c2, c3, c4].take 8)
        :: reFindAllAux datePat3 9 ([a1, a2, '/', b1, b2, '/', c1, c2, c3, c4].drop (max 8 1)) :=
    reFindAllAux_cons_some _ 9 _ _ 8
      (by rw [matchRE_d3_at_date a1 a2 b1 b2 c1 c2 c3 c4 ha1 ha2 hb1 hb2 hc1 hc2 hc3 hc4]; rfl)
  have s2 : reFindAllAux datePat3 9 [c3, c4] = reFindAllAux datePat3 8 [c4] :=
    reFindAllAux_cons_none _ 8 c3 [c4]
      (by rw [matchRE_d3_two_digits c3 c4 hc3 hc4]; rfl)
  have hc4one : matchRE datePat3 [c4] = [] := by
    rw [show datePat3 = RE.seq (RE.cls Char.isDigit 2 (some 4)) (seqs [RE.cls isDateSep 1 (some 1),
      RE.cls Char.isDigit 1 (some 2), RE.cls isDateSep 1 (some 1),
      RE.cls Char.isDigit 1 (some 2)]) from rfl]
    refine matchRE_seq_cls_nil _ _ _ _ _ ?_
    rw [show takeRun Char.isDigit [c4] = (if Char.isDigit c4 then takeRun Char.isDigit [] + 1
      else 0) from rfl, hc4]
    simp [takeRun]
  have s3 : reFindAllAux datePat3 8 [c4] = reFindAllAux datePat3 7 [] :=
    reFindAllAux_cons_none _ 7 c4 [] (by rw [hc4one]; rfl)
  show reFindAllAux datePat3 10 [a1, a2, '/', b1, b2, '/', c1, c2, c3, c4] = _
  rw [s1, show [a1, a2, '/', b1, b2, '/', c1, c2, c3, c4].drop (max 8 1) = [c3, c4] from rfl,
    s2, s3, reFindAllAux_nil datePat3 7 rfl]
  rfl

theorem single_date_truncated_duplicate (a1 a2 b1 b2 c1 c2 c3 c4 : Char)
    (ha1 : a1.isDigit = true) (ha2 : a2.isDigit = true)
    (hb1 : b1.isDigit = true) (hb2 : b2.isDigit = true)
    (hc1 : c1.isDigit = true) (hc2 : c2.isDigit = true)
    (hc3 : c3.isDigit = true) (hc4 : c4.isDigit = true) :
    datesFound [a1, a2, '/', b1, b2, '/', c1, c2, c3, c4]
      = [[a1, a2, '/', b1, b2, '/', c1, c2, c3, c4], [a1, a2, '/', b1, b2, '/', c1, c2]]
    ∧ dictGet (extract_invoice_fields ([a1, a2, '/', b1, b2, '/', c1, c2, c3, c4]).asString)
        "invoice_date" = ([a1, a2, '/', b1, b2, '/', c1, c2, c3, c4]).asString
    ∧ dictGet (extract_invoice_fields ([a1, a2, '/', b1, b2, '/', c1, c2, c3, c4]).asString)
        "due_date" = ([a1, a2, '/', b1, b2, '/', c1, c2]).asString := by
  have hd : datesFound [a1, a2, '/', b1, b2, '/', c1, c2, c3, c4]
      = [[a1, a2, '/', b1, b2, '/', c1, c2, c3, c4], [a1, a2, '/', b1, b2, '/', c1, c2]] := by
    unfold datesFound
    rw [findall_d1_date a1 a2 b1 b2 c1 c2 c3 c4 ha1 ha2 hb1 hb2 hc1 hc2 hc3 hc4,
      findall_d2_date a1 a2 b1 b2 c1 c2 c3 c4 ha1 ha2 hb1 hb2 hc1 hc2 hc3 hc4,
      findall_d3_date a1 a2 b1 b2 c1 c2 c3 c4 ha1 ha2 hb1 hb2 hc1 hc2 hc3 hc4]
    rfl
  refine ⟨hd, ?_, ?_⟩
  · rw [extract_get_invoice_date,
      show (([a1, a2, '/', b1, b2, '/', c1, c2, c3, c4]).asString).toList
        = [a1, a2, '/', b1, b2, '/', c1, c2, c3, c4] from rfl, hd]
    rfl
  · rw [extract_get_due_date,
      show (([a1, a2, '/', b1, b2, '/', c1, c2, c3, c4]).asString).toList
        = [a1, a2, '/', b1, b2, '/', c1, c2, c3, c4] from rfl, hd]
    rfl


/-! ## The claims -/

/-- C1: for every input text, `extract_invoice_fields` returns a mapping
whose keys are exactly the ten fixed field names, in the dict literal's
insertion order; every value is a (total) `String`, so no entry is ever
absent or null. -/
theorem c1_fieldset_keys (text : String) :
    (extract_invoice_fields text).map Prod.fst =
      ["invoice_number", "invoice_date", "due_date", "vendor_name", "vendor_address",
       "bill_to", "total_amount", "subtotal", "tax_amount", "currency"] := by
  show (applyTax _ (applySubtotal _ (applyTotalAmount _ (applyCurrency _
    (applyBillTo _ (applyVendor _ (applyDates _ (applyInvoiceNumber _ initFields)))))))).map
      Prod.fst = _
  exact applyTax_keys _ _ (applySubtotal_keys _ _ (applyTotalAmount_keys _ _
    (applyCurrency_keys _ _ (applyBillTo_keys _ _ (applyVendor_keys _ _
      (applyDates_keys _ _ (applyInvoiceNumber_keys _ _ (by decide))))))))

/-- C1 witness at a concrete input (the theorem's binder is not a
proposition, but the instance documents the evaluated mapping). -/
theorem c1_fieldset_keys_witness :
    (extract_invoice_fields "TOTAL: £1,234.56").map Prod.fst =
      ["invoice_number", "invoice_date", "due_date", "vendor_name", "vendor_address",
       "bill_to", "total_amount", "subtotal", "tax_amount", "currency"] :=
  c1_fieldset_keys "TOTAL: £1,234.56"


/-- C2: the claim says the rasterized temporary page images are deleted on
every exit path of `OCRWorker.run`; the code puts the deletion loop inside
the `try` block after the `finished` emit, so a run in which a step after
rasterization raises an uncaught exception ends through the error path
with the cleanup loop never executed, as this evaluation of the model at
such a run shows. -/
theorem c2_cleanup_skipped_on_fault :
    (OCRWorker_run faultyPdfEnv).outcome = RunOutcome.failed
    ∧ (OCRWorker_run faultyPdfEnv).cleanupExecuted = false
    ∧ (∀ env : RunEnv, (OCRWorker_run env).cleanupExecuted =
        (env.isPdf && !env.rasterized.isEmpty && !env.recognitionRaises)) := by
  refine ⟨rfl, rfl, fun env => ?_⟩
  unfold OCRWorker_run
  cases hp : env.isPdf with
  | false =>
      cases hr : env.recognitionRaises with
      | true => simp [hp, hr]
      | false => simp [hp, hr]
  | true =>
      cases he : env.rasterized.isEmpty with
      | true => simp [hp, he]
      | false =>
          cases hr : env.recognitionRaises with
          | true => simp [hp, he, hr]
          | false => simp [hp, he, hr]

/-- C3: the collected date list is the concatenation, in pattern order
then match order, of the findall results of the three date patterns over
the original-case text; the first collected date becomes `invoice_date`
and the second, if any, becomes `due_date`, with no calendar or ordering
check; on the text 10/01/2024 ... 25/02/2024 this yields
invoice_date 10/01/2024 and due_date 25/02/2024. -/
theorem c3_date_collection :
    (∀ t : String, datesFound t.toList =
        reFindAll datePat1 t.toList ++ reFindAll datePat2 t.toList ++ reFindAll datePat3 t.toList)
    ∧ (∀ t : String,
        dictGet (extract_invoice_fields t) "invoice_date" =
          ((datesFound t.toList).headD []).asString
        ∧ dictGet (extract_invoice_fields t) "due_date" =
          (((datesFound t.toList).drop 1).headD []).asString)
    ∧ dictGet (extract_invoice_fields "10/01/2024 ... 25/02/2024") "invoice_date" = "10/01/2024"
    ∧ dictGet (extract_invoice_fields "10/01/2024 ... 25/02/2024") "due_date" = "25/02/2024" := by
  refine ⟨fun t => rfl,
    fun t => ⟨extract_get_invoice_date t, extract_get_due_date t⟩, ?_, ?_⟩
  · decide
  · decide

/-- C4 counterexample: on TOTAL: , AMOUNT DUE: 50 the TOTAL pattern does
match (capturing the bare comma, which fails the digit check), yet the
code still tries AMOUNT DUE and sets total_amount to 50, while the claim
(AMOUNT DUE only if TOTAL does not match; otherwise the field stays
empty) predicts the empty string. -/
theorem c4_total_counterexample :
    dictGet (extract_invoice_fields "TOTAL: , AMOUNT DUE: 50") "total_amount" = "50"
    ∧ totalAmountClaimWording (upperCL "TOTAL: , AMOUNT DUE: 50".toList) = ""
    ∧ ¬ dictGet (extract_invoice_fields "TOTAL: , AMOUNT DUE: 50") "total_amount"
        = totalAmountClaimWording (upperCL "TOTAL: , AMOUNT DUE: 50".toList) := by
  refine ⟨?_, ?_, ?_⟩ <;> decide

/-- C4 amended: TOTAL is tried first and AMOUNT DUE second; the first
pattern whose matched token, stripped of currency symbols, commas and
whitespace, passes the all-digits-after-removing-the-dot check sets
total_amount; a pattern matching but failing the check does not stop the
next from being tried; otherwise the field stays empty.  In particular
TOTAL: £1,234.56 yields 1234.56 and TOTAL: N/A yields the empty
string. -/
theorem c4_total_amended :
    (∀ t : String, dictGet (extract_invoice_fields t) "total_amount"
        = totalAmountAmended (upperCL t.toList))
    ∧ dictGet (extract_invoice_fields "TOTAL: £1,234.56") "total_amount" = "1234.56"
    ∧ dictGet (extract_invoice_fields "TOTAL: N/A") "total_amount" = "" := by
  refine ⟨fun t => ?_, ?_, ?_⟩
  · rw [extract_get_total_amount]
    unfold totalAmountAmended
    rfl
  · decide
  · decide

/-- C5 counterexample: the claim quantifies over every text containing
both INVOICE NO: A100 and a bare #A100, but an earlier occurrence of an
INVOICE token lets the first pattern match before reaching
INVOICE NO: A100, so the field becomes X rather than A100 on this
text that contains both substrings. -/
theorem c5_priority_counterexample :
    containsSub "INVOICE NO: A100".toList "INVOICE X INVOICE NO: A100 #A100".toList = true
    ∧ containsSub "#A100".toList "INVOICE X INVOICE NO: A100 #A100".toList = true
    ∧ dictGet (extract_invoice_fields "INVOICE X INVOICE NO: A100 #A100") "invoice_number" = "X"
    ∧ ¬ dictGet (extract_invoice_fields "INVOICE X INVOICE NO: A100 #A100") "invoice_number"
        = "A100" := by
  refine ⟨?_, ?_, ?_, ?_⟩ <;> decide

/-- C5 amended: the four invoice-number patterns are tried against the
upper-cased text in strict priority order and the first pattern producing
any match wins, later patterns never being consulted; on the concrete
text INVOICE NO: A100 followed by a bare #A100 (with no earlier
INVOICE-like token) the field resolves to A100, via the first pattern as
its exhibited match shows. -/
theorem c5_priority_amended :
    (∀ t : String, dictGet (extract_invoice_fields t) "invoice_number"
        = invoiceNumberResolved (upperCL t.toList))
    ∧ dictGet (extract_invoice_fields "INVOICE NO: A100\n#A100") "invoice_number" = "A100"
    ∧ reSearchCap invoicePre1 invGroup (upperCL "INVOICE NO: A100\n#A100".toList)
        = some "A100".toList := by
  refine ⟨fun t => ?_, ?_, ?_⟩
  · rw [extract_get_invoice_number]
    unfold invoiceNumberResolved
    rfl
  · decide
  · decide


/-- C6: a PDF input whose rasterization yields an empty page sequence
makes the run end in the failed state with the descriptive error message,
and neither recognition nor extraction is attempted. -/
theorem c6_pdf_rasterization_failure (env : RunEnv) (hpdf : env.isPdf = true)
    (hempty : env.rasterized = []) :
    (OCRWorker_run env).outcome = RunOutcome.failed
    ∧ (OCRWorker_run env).errorEmitted = true
    ∧ (OCRWorker_run env).errorMessage = some "Failed to convert PDF to images"
    ∧ (OCRWorker_run env).recognitionAttempted = false
    ∧ (OCRWorker_run env).extractionAttempted = false := by
  unfold OCRWorker_run
  simp [hpdf, hempty]

/-- C6 witness: the theorem applied to a concrete zero-page PDF run. -/
theorem c6_pdf_rasterization_failure_witness :
    (OCRWorker_run emptyPdfEnv).outcome = RunOutcome.failed
    ∧ (OCRWorker_run emptyPdfEnv).errorEmitted = true
    ∧ (OCRWorker_run emptyPdfEnv).errorMessage = some "Failed to convert PDF to images"
    ∧ (OCRWorker_run emptyPdfEnv).recognitionAttempted = false
    ∧ (OCRWorker_run emptyPdfEnv).extractionAttempted = false :=
  c6_pdf_rasterization_failure emptyPdfEnv rfl rfl

/-- C7: extracting fields from the empty string is total (no exception is
possible for the embedded function) and returns the all-default mapping
in which every one of the ten fields is the empty string; and every run
that passes rasterization and hits no uncaught fault proceeds to
extraction and ends in the done state even when the recognized text is
empty, producing exactly that all-default mapping. -/
theorem c7_empty_text_extraction :
    extract_invoice_fields "" = initFields
    ∧ (∀ env : RunEnv, env.recognitionRaises = false →
        (env.isPdf = true → env.rasterized ≠ []) →
        env.recognizedText = "" →
        (OCRWorker_run env).extractionAttempted = true
        ∧ (OCRWorker_run env).outcome = RunOutcome.done
        ∧ (OCRWorker_run env).fields = some initFields) := by
  have hempty : extract_invoice_fields "" = initFields := by decide
  refine ⟨hempty, fun env hr hp ht => ?_⟩
  have hcond : (env.isPdf && env.rasterized.isEmpty) = false := by
    cases hpdf : env.isPdf with
    | false => rfl
    | true =>
        have := hp hpdf
        cases hras : env.rasterized with
        | nil => exact absurd hras this
        | cons a l => simp
  unfold OCRWorker_run
  rw [hcond]
  simp [hr, ht, hempty]


/-- C7 witness: the theorem applied to a concrete image run with empty
recognized text. -/
theorem c7_empty_text_extraction_witness :
    extract_invoice_fields "" = initFields
    ∧ (OCRWorker_run emptyTextImageEnv).extractionAttempted = true
    ∧ (OCRWorker_run emptyTextImageEnv).outcome = RunOutcome.done
    ∧ (OCRWorker_run emptyTextImageEnv).fields = some initFields :=
  ⟨c7_empty_text_extraction.1,
    c7_empty_text_extraction.2 emptyTextImageEnv rfl (fun h => by cases h) rfl⟩

/-- C8: because the TOTAL regex is searched anywhere in the upper-cased
text it also matches inside the word SUBTOTAL; for every non-empty digit
string, the input consisting of the single amount line Subtotal followed
by that number (which contains no TOTAL or AMOUNT DUE line of its own)
gets total_amount set to the subtotal's stripped numeric value instead of
staying empty; likewise on the representative multi-line input with the
amount 99.10, where the absence of an AMOUNT DUE match is also shown. -/
theorem c8_subtotal_shadows_total :
    (∀ ds : List Char, ds ≠ [] → (∀ c ∈ ds, c.isDigit = true) →
      dictGet (extract_invoice_fields ("Subtotal: " ++ ds.asString)) "total_amount"
          = ds.asString
      ∧ dictGet (extract_invoice_fields ("Subtotal: " ++ ds.asString)) "subtotal"
          = ds.asString)
    ∧ dictGet (extract_invoice_fields "Invoice 42\nSubtotal: 99.10\nThank you") "total_amount"
      = "99.10"
    ∧ dictGet (extract_invoice_fields "Invoice 42\nSubtotal: 99.10\nThank you") "subtotal"
      = "99.10"
    ∧ reSearchCap totalPre amountGroup
        (upperCL "Invoice 42\nSubtotal: 99.10\nThank you".toList) = some "99.10".toList
    ∧ reSearchCap amountDuePre amountGroup
        (upperCL "Invoice 42\nSubtotal: 99.10\nThank you".toList) = none := by
  refine ⟨subtotal_line_sets_total_amount, ?_, ?_, ?_, ?_⟩ <;> decide

/-- C8 witness: the family theorem applied to the concrete number 42. -/
theorem c8_subtotal_shadows_total_witness :
    dictGet (extract_invoice_fields ("Subtotal: " ++ (['4', '2'] : List Char).asString))
        "total_amount" = (['4', '2'] : List Char).asString
    ∧ dictGet (extract_invoice_fields ("Subtotal: " ++ (['4', '2'] : List Char).asString))
        "subtotal" = (['4', '2'] : List Char).asString :=
  c8_subtotal_shadows_total.1 ['4', '2'] (by decide) (by decide)

/-- C9: for every date written dd/mm/yyyy with arbitrary digit characters
and a four-digit year (the whole text being that single date, with no
other date-shaped substring), the third date pattern additionally matches
the truncated eight-character prefix, so the collected list has exactly
two entries and due_date becomes a truncated duplicate of invoice_date
instead of staying empty; likewise on the representative input
Date: 10/01/2024. -/
theorem c9_truncated_due_date :
    (∀ a1 a2 b1 b2 c1 c2 c3 c4 : Char,
      a1.isDigit = true → a2.isDigit = true → b1.isDigit = true → b2.isDigit = true →
      c1.isDigit = true → c2.isDigit = true → c3.isDigit = true → c4.isDigit = true →
      datesFound [a1, a2, '/', b1, b2, '/', c1, c2, c3, c4]
        = [[a1, a2, '/', b1, b2, '/', c1, c2, c3, c4], [a1, a2, '/', b1, b2, '/', c1, c2]]
      ∧ dictGet (extract_invoice_fields ([a1, a2, '/', b1, b2, '/', c1, c2, c3, c4]).asString)
          "invoice_date" = ([a1, a2, '/', b1, b2, '/', c1, c2, c3, c4]).asString
      ∧ dictGet (extract_invoice_fields ([a1, a2, '/', b1, b2, '/', c1, c2, c3, c4]).asString)
          "due_date" = ([a1, a2, '/', b1, b2, '/', c1, c2]).asString)
    ∧ datesFound "Date: 10/01/2024".toList = ["10/01/2024".toList, "10/01/20".toList]
    ∧ dictGet (extract_invoice_fields "Date: 10/01/2024") "invoice_date" = "10/01/2024"
    ∧ dictGet (extract_invoice_fields "Date: 10/01/2024") "due_date" = "10/01/20" := by
  refine ⟨fun a1 a2 b1 b2 c1 c2 c3 c4 ha1 ha2 hb1 hb2 hc1 hc2 hc3 hc4 =>
    single_date_truncated_duplicate a1 a2 b1 b2 c1 c2 c3 c4 ha1 ha2 hb1 hb2 hc1 hc2 hc3 hc4,
    ?_, ?_, ?_⟩ <;> decide

/-- C9 witness: the family theorem applied to the digits of 10/01/2024. -/
theorem c9_truncated_due_date_witness :
    dictGet (extract_invoice_fields
        (['1', '0', '/', '0', '1', '/', '2', '0', '2', '4'] : List Char).asString)
      "invoice_date" = (['1', '0', '/', '0', '1', '/', '2', '0', '2', '4'] : List Char).asString
    ∧ dictGet (extract_invoice_fields
        (['1', '0', '/', '0', '1', '/', '2', '0', '2', '4'] : List Char).asString)
      "due_date" = (['1', '0', '/', '0', '1', '/', '2', '0'] : List Char).asString :=
  ⟨(c9_truncated_due_date.1 '1' '0' '0' '1' '2' '0' '2' '4' (by decide) (by decide) (by decide)
      (by decide) (by decide) (by decide) (by decide) (by decide)).2.1,
   (c9_truncated_due_date.1 '1' '0' '0' '1' '2' '0' '2' '4' (by decide) (by decide) (by decide)
      (by decide) (by decide) (by decide) (by decide) (by decide)).2.2⟩

/-- C10: on every text that begins with the header INVOICE DATE: (whose
earliest invoice-pattern match is therefore that header), the first
pattern's optional NO-NUMBER-# group matches nothing and the capture
grabs the word DATE, so invoice_number becomes the literal string DATE;
the exhibited match of pattern one on the representative input shows the
field is resolved via the first pattern. -/
theorem c10_invoice_number_grabs_date :
    (∀ r : String,
      dictGet (extract_invoice_fields ("INVOICE DATE: " ++ r)) "invoice_number" = "DATE")
    ∧ dictGet (extract_invoice_fields "INVOICE DATE: 10/01/2024\nAcme Corp") "invoice_number"
      = "DATE"
    ∧ reSearchCap invoicePre1 invGroup
        (upperCL "INVOICE DATE: 10/01/2024\nAcme Corp".toList) = some "DATE".toList := by
  refine ⟨fun r => ?_, ?_, ?_⟩
  · rw [extract_get_invoice_number, toList_append_str, upperCL_append,
      show upperCL "INVOICE DATE: ".toList = "INVOICE DATE: ".toList from rfl]
    unfold invFirstMatch
    rw [searchInv1_header (upperCL r.toList)]
    simp [List.filterMap_cons]
    rfl
  · decide
  · decide
